import Mathlib

/-!
Formal model of the embedding and recognition engine of the handinhand
repository.

The definitions below are shallow embeddings of the Python source:

* `normalize_landmarks`, `is_frame_quality_good`, `compute_embedding`,
  `match_embedding` model `recognition_base.py` (class
  `BaseRecognitionEngine`).
* `tfUpdate`, `uiStatus`, `cooldownStep` model `recognition_engine_ui.py`
  (`TemporalFilter.update`, `RecognitionEngineUI.recognize`, and the
  cooldown block of `RecognitionEngineUI.run`).
* `gen_normalize_landmarks`, `frame_to_embedding`, `remove_outlier_frames`,
  `padToEmbeddingDim` model `generate_embeddings.py` (class
  `EmbeddingGenerator`).

Coordinates and scores are modelled as exact real numbers (the source uses
floating point; `numpy` norms are `Real.sqrt`).  Division by zero follows
the Lean convention `x / 0 = 0`; no theorem below depends on that case.
-/

open scoped Classical

namespace HandInHand

/-- A tracked landmark point, as the triple (x, y, z). -/
abbrev Pt : Type := ℝ × ℝ × ℝ

/-- One landmark frame: the concatenated landmark groups
pose(6) ++ left_hand(21) ++ right_hand(21) ++ face(4) in combined format. -/
abbrev Frame : Type := List Pt

/-- x coordinate of the midpoint of the two shoulders, which sit at combined
indices 0 and 1 (`SHOULDER_LEFT_IDX` and `SHOULDER_RIGHT_IDX`). -/
noncomputable def shoulderCenterX (f : Frame) : ℝ :=
  ((f.getD 0 (0, 0, 0)).1 + (f.getD 1 (0, 0, 0)).1) / 2

/-- y coordinate of the shoulder midpoint. -/
noncomputable def shoulderCenterY (f : Frame) : ℝ :=
  ((f.getD 0 (0, 0, 0)).2.1 + (f.getD 1 (0, 0, 0)).2.1) / 2

/-- Shoulder width: `np.linalg.norm(shoulder_left - shoulder_right)` over the
x,y slices of the two shoulder landmarks. -/
noncomputable def shoulderWidth (f : Frame) : ℝ :=
  Real.sqrt (((f.getD 0 (0, 0, 0)).1 - (f.getD 1 (0, 0, 0)).1) ^ 2 +
    ((f.getD 0 (0, 0, 0)).2.1 - (f.getD 1 (0, 0, 0)).2.1) ^ 2)

/-- `BaseRecognitionEngine.normalize_landmarks`: frames with fewer than 6
points are returned unchanged; otherwise x,y are centred on the shoulder
midpoint, and additionally divided by the shoulder width when that width
exceeds 0.01.  z is never touched. -/
noncomputable def normalize_landmarks (f : Frame) : Frame :=
  if f.length < 6 then f
  else
    let translated := f.map (fun p =>
      (p.1 - shoulderCenterX f, p.2.1 - shoulderCenterY f, p.2.2))
    if 0.01 < shoulderWidth f then
      translated.map (fun p => (p.1 / shoulderWidth f, p.2.1 / shoulderWidth f, p.2.2))
    else translated

/-- Flattening of a list of points into the row-major coordinate list, as
`numpy.ndarray.flatten` does on an (n,3) array. -/
def flattenPts : List Pt → List ℝ
  | [] => []
  | p :: r => p.1 :: p.2.1 :: p.2.2 :: flattenPts r

/-- Per-frame feature vector of `compute_embedding`: normalize, flatten,
zero-pad to 512 when shorter, then slice to the first 512 entries. -/
noncomputable def frameFeatures (f : Frame) : List ℝ :=
  (if (flattenPts (normalize_landmarks f)).length < 512 then
    flattenPts (normalize_landmarks f) ++
      List.replicate (512 - (flattenPts (normalize_landmarks f)).length) 0
  else flattenPts (normalize_landmarks f)).take 512

/-- `np.allclose(p, 0)` with the default tolerances (atol = 1e-8, and the
relative part vanishes against the zero reference). -/
def allCloseZero (p : Pt) : Prop :=
  |p.1| ≤ 1e-8 ∧ |p.2.1| ≤ 1e-8 ∧ |p.2.2| ≤ 1e-8

/-- `np.any(np.abs(hand) > 0.01)` over a hand group. -/
def handHasData (pts : List Pt) : Prop :=
  ∃ p ∈ pts, 0.01 < |p.1| ∨ 0.01 < |p.2.1| ∨ 0.01 < |p.2.2|

/-- `BaseRecognitionEngine.is_frame_quality_good`: both shoulders away from
zero, and at least one hand group (combined indices 6..26 and 27..47) holds
non-zero data. -/
def is_frame_quality_good (f : Frame) : Prop :=
  ¬ allCloseZero (f.getD 0 (0, 0, 0)) ∧ ¬ allCloseZero (f.getD 1 (0, 0, 0)) ∧
    (handHasData ((f.drop 6).take 21) ∨ handHasData ((f.drop 27).take 21))

/-- `sum(1 for lm in self.landmark_window if self.is_frame_quality_good(lm))`. -/
noncomputable def goodFrameCount (window : List Frame) : ℕ :=
  (window.map (fun f => if is_frame_quality_good f then 1 else 0)).sum

/-- Masked column mean: `np.ma.mean` over one coordinate slot with the mask
`frame_array == 0`, then `.filled(0)` — the mean of the non-zero entries,
and 0 when every entry is zero. -/
noncomputable def maskedMean (col : List ℝ) : ℝ :=
  if (col.filter (fun x => decide (x ≠ 0))).length = 0 then 0
  else (col.filter (fun x => decide (x ≠ 0))).sum /
    ((col.filter (fun x => decide (x ≠ 0))).length : ℝ)

/-- `BaseRecognitionEngine.compute_embedding`: `None` while the window holds
fewer than `WINDOW_SIZE = 30` frames or while fewer than 70 percent of the
frames pass the quality check; otherwise the masked per-slot mean of the
per-frame 512-entry feature vectors. -/
noncomputable def compute_embedding (window : List Frame) : Option (List ℝ) :=
  if window.length < 30 then none
  else if (goodFrameCount window : ℝ) / (window.length : ℝ) < 0.7 then none
  else some ((List.range 512).map (fun i =>
    maskedMean ((window.map frameFeatures).map (fun fl => fl.getD i 0))))

/-- The fields of `RecognitionResult` that `match_embedding` fills. -/
structure MatchResult where
  concept : Option String
  similarity_score : ℝ
  confidence_level : String
  verification_status : String
  all_scores : List (String × ℝ)
  gap_to_second : ℝ

/-- `1 - scipy.spatial.distance.cosine(u, v)`; the cosine distance is
`1 - (u . v) / (|u| |v|)`. -/
noncomputable def cosineSimilarity (u v : List ℝ) : ℝ :=
  1 - (1 - ((u.zip v).map (fun p => p.1 * p.2)).sum /
    (Real.sqrt ((u.map (fun x => x ^ 2)).sum) * Real.sqrt ((v.map (fun x => x ^ 2)).sum)))

/-- `sorted(scores.items(), key=lambda x: x[1], reverse=True)`. -/
noncomputable def sortScoresDesc (scores : List (String × ℝ)) : List (String × ℝ) :=
  List.insertionSort (fun a b => b.2 ≤ a.2) scores

/-- The Tier-4 status chain of `match_embedding`, with
`COSINE_SIM_THRESHOLD = 0.80` and `TIER_4_GAP_THRESHOLD = 0.15`. -/
noncomputable def tierStatus (best gap : ℝ) : String :=
  if best < 0.80 then "low_confidence"
  else if gap < 0.15 then "cross_concept_noise"
  else "verified"

/-- Best (top sorted) score of a score list. -/
noncomputable def bestScoreOf (scores : List (String × ℝ)) : ℝ :=
  ((sortScoresDesc scores).getD 0 ("", 0)).2

/-- Second-best (runner-up) score of a score list. -/
noncomputable def secondScoreOf (scores : List (String × ℝ)) : ℝ :=
  ((sortScoresDesc scores).getD 1 ("", 0)).2

/-- The body of `BaseRecognitionEngine.match_embedding` after the per-concept
scores are computed: the empty-scores branch, then sorting, gap, Tier-4
status and confidence level. -/
noncomputable def matchScores (scores : List (String × ℝ)) : MatchResult :=
  if scores.isEmpty then ⟨none, 0, "low", "no_embeddings", [], 0⟩
  else
    let sorted := sortScoresDesc scores
    let best := sorted.getD 0 ("", 0)
    let gap := if 1 < sorted.length then best.2 - (sorted.getD 1 ("", 0)).2 else 0
    let confidence :=
      if 0.90 ≤ best.2 then "high" else if 0.80 ≤ best.2 then "medium" else "low"
    ⟨some best.1, best.2, confidence, tierStatus best.2 gap, scores, gap⟩

/-- `BaseRecognitionEngine.match_embedding`: cosine-score the live embedding
against every stored concept embedding, then classify. -/
noncomputable def match_embedding (live : List ℝ) (embeddings : List (String × List ℝ)) :
    MatchResult :=
  matchScores (embeddings.map (fun e => (e.1, cosineSimilarity live e.2)))

/-- State of `TemporalFilter`: the defaultdict of per-concept consecutive
counts, the last seen concept, and the last confirmed concept. -/
structure TFState where
  frameCount : String → ℕ
  lastConcept : Option String
  confirmedConcept : Option String

/-- Fresh filter state. -/
def tfInit : TFState := ⟨fun _ => 0, none, none⟩

/-- `TemporalFilter.update`.  Above the threshold the count of the best
concept is incremented when the concept repeats and restarted at 1 when it
changes; reaching `min_frames` confirms the concept and returns early
(leaving `last_concept` untouched on that path, as the Python early return
does).  Below the threshold the count of the last concept is zeroed (when
that concept is truthy) and the confirmation is cleared. -/
def tfUpdate (minFrames : ℕ) (threshold : ℚ) (s : TFState) (best : String) (sim : ℚ) :
    TFState × Option String :=
  if threshold ≤ sim then
    let fc : String → ℕ :=
      if s.lastConcept = some best then
        fun c => if c = best then s.frameCount best + 1 else s.frameCount c
      else fun c => if c = best then 1 else 0
    if minFrames ≤ fc best then (⟨fc, s.lastConcept, some best⟩, some best)
    else (⟨fc, some best, s.confirmedConcept⟩, none)
  else
    let fc : String → ℕ :=
      match s.lastConcept with
      | some c => if c = "" then s.frameCount else fun x => if x = c then 0 else s.frameCount x
      | none => s.frameCount
    (⟨fc, some best, none⟩, none)

/-- Feed a list of (best_concept, best_score) readings through the filter,
collecting the per-frame confirmation outputs. -/
def tfRun (minFrames : ℕ) (threshold : ℚ) : TFState → List (String × ℚ) → List (Option String)
  | _, [] => []
  | s, (c, sc) :: rest =>
    let r := tfUpdate minFrames threshold s c sc
    r.2 :: tfRun minFrames threshold r.1 rest

/-- The verification-status chain of `RecognitionEngineUI.recognize` after the
temporal filter ran: confirmed concepts are `verified`; otherwise the score
and the gap to the runner-up decide between `pending_confirmation`,
`low_confidence` and `cross_concept_noise`. -/
def uiStatus (confirmed : Option String) (best gap : ℚ) : String :=
  if confirmed.isSome then "verified"
  else if 0.80 ≤ best ∧ 0.15 ≤ gap then "pending_confirmation"
  else if best < 0.80 then "low_confidence"
  else "cross_concept_noise"

/-- One frame of `RecognitionEngineUI.recognize` after scoring: update the
temporal filter (min_frames = 5, threshold = 0.80) with the best concept and
score, then classify. -/
def uiRecognizeStep (s : TFState) (best : String) (bestScore secondScore : ℚ) :
    TFState × String :=
  let r := tfUpdate 5 0.80 s best bestScore
  (r.1, uiStatus r.2 bestScore (bestScore - secondScore))

/-- Run `recognize` frames through the filter-plus-status pipeline, collecting
the reported verification statuses. -/
def uiRecognizeRun : TFState → List (String × ℚ × ℚ) → List String
  | _, [] => []
  | s, (c, b, sec) :: rest =>
    let r := uiRecognizeStep s c b sec
    r.2 :: uiRecognizeRun r.1 rest

/-- One recognition result reaching the cooldown block of
`RecognitionEngineUI.run`: its wall-clock time in ms, the concept, the
window-complete flag and the verification status. -/
structure CDEvent where
  time : ℚ
  concept : String
  windowComplete : Bool
  status : String

/-- Cooldown state: `last_match_time` (initially 0) and
`last_matched_concept`. -/
structure CDState where
  lastMatchTime : ℚ
  lastMatchedConcept : Option String

/-- Initial cooldown state of the engine. -/
def cdInit : CDState := ⟨0, none⟩

/-- The cooldown block of `RecognitionEngineUI.run`: when the window is
complete and the status is verified, emit only if `now - last_match_time >
cooldown_ms`, and on emission record the time and the concept. -/
def cooldownStep (cooldownMs : ℚ) (s : CDState) (e : CDEvent) : CDState × Option (ℚ × String) :=
  if e.windowComplete = true ∧ e.status = "verified" then
    if cooldownMs < e.time - s.lastMatchTime then
      (⟨e.time, some e.concept⟩, some (e.time, e.concept))
    else (s, none)
  else (s, none)

/-- Drive a stream of results through the cooldown gate, collecting the
emitted (time, concept) events. -/
def cooldownRun (cooldownMs : ℚ) : CDState → List CDEvent → List (ℚ × String)
  | _, [] => []
  | s, e :: rest =>
    let r := cooldownStep cooldownMs s e
    match r.2 with
    | some em => em :: cooldownRun cooldownMs r.1 rest
    | none => cooldownRun cooldownMs r.1 rest

/-- x coordinate of the builder shoulder midpoint (`generate_embeddings.py`
uses raw pose indices 11 and 12 and a full 3-D midpoint). -/
noncomputable def genCenterX (lms : List Pt) : ℝ :=
  ((lms.getD 11 (0, 0, 0)).1 + (lms.getD 12 (0, 0, 0)).1) / 2

/-- y coordinate of the builder shoulder midpoint. -/
noncomputable def genCenterY (lms : List Pt) : ℝ :=
  ((lms.getD 11 (0, 0, 0)).2.1 + (lms.getD 12 (0, 0, 0)).2.1) / 2

/-- z coordinate of the builder shoulder midpoint. -/
noncomputable def genCenterZ (lms : List Pt) : ℝ :=
  ((lms.getD 11 (0, 0, 0)).2.2 + (lms.getD 12 (0, 0, 0)).2.2) / 2

/-- Builder shoulder width: norm of the x,y difference of landmarks 11, 12. -/
noncomputable def genShoulderWidth (lms : List Pt) : ℝ :=
  Real.sqrt (((lms.getD 11 (0, 0, 0)).1 - (lms.getD 12 (0, 0, 0)).1) ^ 2 +
    ((lms.getD 11 (0, 0, 0)).2.1 - (lms.getD 12 (0, 0, 0)).2.1) ^ 2)

/-- `EmbeddingGenerator._normalize_landmarks`: with more than 12 points, the
full 3-D shoulder midpoint is subtracted from every coordinate (z included)
and, when the shoulder width exceeds 0.01, every coordinate (z included) is
divided by that width.  With 12 or fewer points the input is unchanged. -/
noncomputable def gen_normalize_landmarks (lms : List Pt) : List Pt :=
  if 12 < lms.length then
    let translated := lms.map (fun p =>
      (p.1 - genCenterX lms, p.2.1 - genCenterY lms, p.2.2 - genCenterZ lms))
    if 0.01 < genShoulderWidth lms then
      translated.map (fun p =>
        (p.1 / genShoulderWidth lms, p.2.1 / genShoulderWidth lms, p.2.2 / genShoulderWidth lms))
    else translated
  else lms

/-- One signature frame record: the four optional landmark groups (an absent
group is the empty list, matching the Python falsiness check). -/
structure FrameData where
  pose : List Pt
  left_hand : List Pt
  right_hand : List Pt
  face : List Pt

/-- `EmbeddingGenerator._frame_to_embedding`: concatenate the groups; a frame
with zero points yields `np.zeros(52)`; otherwise normalize (builder variant)
and flatten. -/
noncomputable def frame_to_embedding (fd : FrameData) : List ℝ :=
  let lms := fd.pose ++ fd.left_hand ++ fd.right_hand ++ fd.face
  if lms.length = 0 then List.replicate 52 0
  else flattenPts (gen_normalize_landmarks lms)

/-- The final pad/truncate step of
`EmbeddingGenerator._compute_signature_embedding`: pad the averaged embedding
with zeros up to `EMBEDDING_DIM = 512`, or slice to the first 512 entries. -/
def padToEmbeddingDim (l : List ℝ) : List ℝ :=
  if l.length < 512 then l ++ List.replicate (512 - l.length) 0 else l.take 512

/-- `np.median` of a one-dimensional list: middle element of the sorted list
for odd length, average of the two middle elements for even length. -/
noncomputable def medianR (l : List ℝ) : ℝ :=
  let s := List.insertionSort (fun a b => a ≤ b) l
  if l.length % 2 = 1 then s.getD (l.length / 2) 0
  else (s.getD (l.length / 2 - 1) 0 + s.getD (l.length / 2) 0) / 2

/-- `np.median(embeddings, axis=0)`: the per-coordinate median across the
frame embeddings. -/
noncomputable def medianVec (fe : List (List ℝ)) : List ℝ :=
  (List.range (fe.headD []).length).map (fun i => medianR (fe.map (fun e => e.getD i 0)))

/-- Euclidean distance between two coordinate lists
(`np.linalg.norm(a - b)`). -/
noncomputable def euclidDist (u v : List ℝ) : ℝ :=
  Real.sqrt (((u.zip v).map (fun p => (p.1 - p.2) ^ 2)).sum)

/-- The per-frame distances to the median embedding. -/
noncomputable def outlierDistances (fe : List (List ℝ)) : List ℝ :=
  fe.map (fun e => euclidDist e (medianVec fe))

/-- `mad = np.median(np.abs(distances - np.median(distances)))`. -/
noncomputable def outlierMad (fe : List (List ℝ)) : ℝ :=
  medianR ((outlierDistances fe).map (fun d => |d - medianR (outlierDistances fe)|))

/-- The modified z-scores `0.6745 * (d - median) / mad`. -/
noncomputable def outlierModifiedZ (fe : List (List ℝ)) : List ℝ :=
  (outlierDistances fe).map (fun d => 0.6745 * (d - medianR (outlierDistances fe)) / outlierMad fe)

/-- The frames kept by the z-score filter (`abs(z) < OUTLIER_THRESHOLD`,
with `OUTLIER_THRESHOLD = 3.0`). -/
noncomputable def outlierFiltered (fe : List (List ℝ)) : List (List ℝ) :=
  ((fe.zip (outlierModifiedZ fe)).filter (fun p => decide (|p.2| < 3.0))).map (fun p => p.1)

/-- `EmbeddingGenerator._remove_outlier_frames`: fewer than 5 frames or a MAD
below 1e-6 return the input unchanged; otherwise the z-score-filtered frames
are returned, falling back to the original list when the filter keeps
nothing. -/
noncomputable def remove_outlier_frames (fe : List (List ℝ)) : List (List ℝ) :=
  if fe.length < 5 then fe
  else if outlierMad fe < 1e-6 then fe
  else if (outlierFiltered fe).isEmpty then fe
  else outlierFiltered fe

/-- Modelled from the spec (section 4.1): the Landmark Normalizer as the spec
words it, returning a rejection signal (`none`) when the shoulder width is
below the epsilon 0.01, and the centred-and-scaled frame otherwise.  The code
under `src/` has no rejection path in `normalize_landmarks`; this definition
exists only to compare the spec claim against the code. -/
noncomputable def normalizerSpec (f : Frame) : Option Frame :=
  if shoulderWidth f < 0.01 then none
  else some ((f.map (fun p =>
    (p.1 - shoulderCenterX f, p.2.1 - shoulderCenterY f, p.2.2))).map (fun p =>
      (p.1 / shoulderWidth f, p.2.1 / shoulderWidth f, p.2.2)))

/-- The zero point, the missing-landmark sentinel. -/
noncomputable def zeroPt : Pt := (0, 0, 0)

/-- Left shoulder of the concrete test frames. -/
noncomputable def shoulderLPt : Pt := (0, 1, 0)

/-- Right shoulder of the concrete test frames: shoulder width 2, midpoint
(1, 1). -/
noncomputable def shoulderRPt : Pt := (2, 1, 0)

/-- A valid left-hand landmark. -/
noncomputable def leftHandPt : Pt := (1/2, 1/2, 1/5)

/-- A valid right-hand landmark. -/
noncomputable def rightHandPt : Pt := (3/2, 1/2, 1/5)

/-- A fully valid 52-point frame: shoulders, zeroed arm landmarks, identical
valid left-hand and right-hand points, zeroed face points. -/
noncomputable def validFrame : Frame :=
  [shoulderLPt, shoulderRPt] ++ List.replicate 4 zeroPt ++ List.replicate 21 leftHandPt ++
    List.replicate 21 rightHandPt ++ List.replicate 4 zeroPt

/-- The same frame with the whole left_hand group missing (all zeros), the
dropout sentinel the tracker produces. -/
noncomputable def missingFrame : Frame :=
  [shoulderLPt, shoulderRPt] ++ List.replicate 4 zeroPt ++ List.replicate 21 zeroPt ++
    List.replicate 21 rightHandPt ++ List.replicate 4 zeroPt

/-- A full 30-frame window with no missing data. -/
noncomputable def windowFull : List Frame := List.replicate 30 validFrame

/-- The same window with one frame whose left_hand group is missing. -/
noncomputable def windowMissing : List Frame :=
  List.replicate 29 validFrame ++ [missingFrame]

/-- A 6-point frame with a degenerate pose: shoulder width 1/200 < 0.01. -/
noncomputable def degenerateFrame : Frame :=
  [(1, 1, 0), (201/200, 1, 0), zeroPt, zeroPt, zeroPt, zeroPt]

/-- A 13-point builder landmark list whose shoulders (indices 11, 12) sit at
z = 1, so the builder normalization shifts and scales z. -/
noncomputable def builderLandmarks : List Pt :=
  [(0, 0, 1)] ++ List.replicate 10 zeroPt ++ [(0, 1, 1), (2, 1, 1)]

/-- Helper: `tierStatus` is `low_confidence` exactly below the 0.80
threshold. -/
theorem tierStatus_eq_low_iff (best gap : ℝ) :
    tierStatus best gap = "low_confidence" ↔ best < 0.80 := by
  unfold tierStatus
  split_ifs <;> simp_all

/-- Helper: `tierStatus` is `cross_concept_noise` exactly when the score
passes but the gap does not. -/
theorem tierStatus_eq_cross_iff (best gap : ℝ) :
    tierStatus best gap = "cross_concept_noise" ↔ 0.80 ≤ best ∧ gap < 0.15 := by
  unfold tierStatus
  split_ifs with h1 h2 <;> simp_all

/-- Helper: `tierStatus` is `verified` exactly when score and gap both
pass. -/
theorem tierStatus_eq_verified_iff (best gap : ℝ) :
    tierStatus best gap = "verified" ↔ 0.80 ≤ best ∧ 0.15 ≤ gap := by
  unfold tierStatus
  split_ifs with h1 h2 <;> simp_all

/-- Helper: on a list with at least two scores, `matchScores` reports the
Tier-4 status of the top two sorted scores. -/
theorem matchScores_status_of_two (scores : List (String × ℝ)) (h2 : 2 ≤ scores.length) :
    (matchScores scores).verification_status =
      tierStatus (bestScoreOf scores) (bestScoreOf scores - secondScoreOf scores) := by
  have hne : scores.isEmpty = false := by
    cases scores with
    | nil => simp at h2
    | cons a l => simp
  have hlen : 1 < (sortScoresDesc scores).length := by
    unfold sortScoresDesc
    rw [List.length_insertionSort]
    omega
  unfold matchScores bestScoreOf secondScoreOf
  rw [hne]
  simp only [Bool.false_eq_true, if_false, hlen, if_pos]

/-- C2: the Tier-4 classification of `match_embedding` is a pure function of
the top two scores — `low_confidence` iff best < 0.80, `cross_concept_noise`
iff best >= 0.80 and the gap is under 0.15, `verified` otherwise; raising
best (second fixed) never produces `low_confidence` from a passing result,
and any sub-0.15 gap with a passing best yields `cross_concept_noise`. -/
theorem c2_tier_classification (scores : List (String × ℝ)) (h2 : 2 ≤ scores.length) :
    ((matchScores scores).verification_status = "low_confidence" ↔
      bestScoreOf scores < 0.80) ∧
    ((matchScores scores).verification_status = "cross_concept_noise" ↔
      0.80 ≤ bestScoreOf scores ∧ bestScoreOf scores - secondScoreOf scores < 0.15) ∧
    ((matchScores scores).verification_status = "verified" ↔
      0.80 ≤ bestScoreOf scores ∧ 0.15 ≤ bestScoreOf scores - secondScoreOf scores) ∧
    (∀ b b' s : ℝ, b ≤ b' → tierStatus b (b - s) ≠ "low_confidence" →
      tierStatus b' (b' - s) ≠ "low_confidence") ∧
    (∀ (confirmed : Option String) (b b' s : ℚ), b ≤ b' →
      uiStatus confirmed b (b - s) ≠ "low_confidence" →
      uiStatus confirmed b' (b' - s) ≠ "low_confidence") ∧
    (∀ b g : ℝ, 0.80 ≤ b → g < 0.15 → tierStatus b g = "cross_concept_noise") := by
  rw [matchScores_status_of_two scores h2]
  refine ⟨tierStatus_eq_low_iff _ _, tierStatus_eq_cross_iff _ _, tierStatus_eq_verified_iff _ _,
    ?_, ?_, ?_⟩
  · intro b b' s hbb hb hcon
    refine hb ?_
    rw [tierStatus_eq_low_iff] at hcon ⊢
    linarith
  · intro confirmed b b' s hbb hb
    unfold uiStatus at hb ⊢
    split_ifs at hb ⊢ with g1 g2 g3 g4 g5 g6 <;> simp_all <;> linarith
  · intro b g hb hg
    rw [tierStatus_eq_cross_iff]
    exact ⟨hb, hg⟩

/-- C2 witness: the classification theorem at the two-element score list
[(a, 1), (b, 0)]. -/
theorem c2_tier_classification_witness :
    2 ≤ ([("a", (1 : ℝ)), ("b", 0)] : List (String × ℝ)).length ∧
    (((matchScores [("a", (1 : ℝ)), ("b", 0)]).verification_status = "low_confidence" ↔
      bestScoreOf [("a", (1 : ℝ)), ("b", 0)] < 0.80) ∧
    ((matchScores [("a", (1 : ℝ)), ("b", 0)]).verification_status = "cross_concept_noise" ↔
      0.80 ≤ bestScoreOf [("a", (1 : ℝ)), ("b", 0)] ∧
        bestScoreOf [("a", (1 : ℝ)), ("b", 0)] - secondScoreOf [("a", (1 : ℝ)), ("b", 0)] < 0.15) ∧
    ((matchScores [("a", (1 : ℝ)), ("b", 0)]).verification_status = "verified" ↔
      0.80 ≤ bestScoreOf [("a", (1 : ℝ)), ("b", 0)] ∧
        0.15 ≤ bestScoreOf [("a", (1 : ℝ)), ("b", 0)] - secondScoreOf [("a", (1 : ℝ)), ("b", 0)]) ∧
    (∀ b b' s : ℝ, b ≤ b' → tierStatus b (b - s) ≠ "low_confidence" →
      tierStatus b' (b' - s) ≠ "low_confidence") ∧
    (∀ (confirmed : Option String) (b b' s : ℚ), b ≤ b' →
      uiStatus confirmed b (b - s) ≠ "low_confidence" →
      uiStatus confirmed b' (b' - s) ≠ "low_confidence") ∧
    (∀ b g : ℝ, 0.80 ≤ b → g < 0.15 → tierStatus b g = "cross_concept_noise")) :=
  ⟨by norm_num, c2_tier_classification [("a", (1 : ℝ)), ("b", 0)] (by norm_num)⟩

/-- C4 counterexample: the score sequence [0.85, 0.79, 0.85, 0.85, 0.85,
0.85] for one concept with threshold 0.80 and N = 5 produces no confirmation
at any of the six frames — in particular not at frame 6, contrary to the
claim. -/
theorem c4_temporal_counterexample :
    tfRun 5 0.80 tfInit
      [("A", 0.85), ("A", 0.79), ("A", 0.85), ("A", 0.85), ("A", 0.85), ("A", 0.85)] =
      [none, none, none, none, none, none] := by
  norm_num [tfRun, tfUpdate, tfInit, show ("A" : String) ≠ "" from by decide]

/-- C4 amended: the dip at frame 2 resets the consecutive count, frames 3 to
6 accumulate only 4 qualifying frames, so the sequence does not confirm
within 6 frames; a seventh qualifying frame is the fifth consecutive one and
confirms the concept at frame 7. -/
theorem c4_temporal_amended :
    tfRun 5 0.80 tfInit
      [("A", 0.85), ("A", 0.79), ("A", 0.85), ("A", 0.85), ("A", 0.85), ("A", 0.85),
        ("A", 0.85)] =
      [none, none, none, none, none, none, some "A"] := by
  norm_num [tfRun, tfUpdate, tfInit, show ("A" : String) ≠ "" from by decide]

/-- Helper: the emission times produced by the cooldown gate form a chain in
which each time exceeds its predecessor (starting from the initial
`last_match_time`) by more than the cooldown. -/
theorem cooldownRun_chain (cooldownMs : ℚ) (events : List CDEvent) (s : CDState) :
    List.Chain (fun a b : ℚ => cooldownMs < b - a) s.lastMatchTime
      ((cooldownRun cooldownMs s events).map (fun em => em.1)) := by
  induction events generalizing s with
  | nil => simp [cooldownRun]
  | cons e rest ih =>
    unfold cooldownRun cooldownStep
    split_ifs with h1 h2
    · simp only [List.map_cons]
      refine List.Chain.cons ?_ (ih ⟨e.time, some e.concept⟩)
      exact h2
    · exact ih s
    · exact ih s

/-- C5: the cooldown gate emits only when `now - last_match_time` exceeds the
cooldown and records time and concept on emission, hence (for a nonnegative
cooldown) any two emitted events are separated by more than the cooldown; two
verified confirmations of one concept 500 ms apart under a 2000 ms cooldown
emit exactly once. -/
theorem c5_cooldown_gate :
    (∀ cooldownMs : ℚ, 0 ≤ cooldownMs → ∀ (events : List CDEvent) (s : CDState),
      List.Pairwise (fun a b : ℚ × String => cooldownMs < b.1 - a.1)
        (cooldownRun cooldownMs s events)) ∧
    (∀ (cooldownMs : ℚ) (s : CDState) (e : CDEvent) (s' : CDState) (em : ℚ × String),
      cooldownStep cooldownMs s e = (s', some em) →
      em = (e.time, e.concept) ∧ s' = ⟨e.time, some e.concept⟩ ∧
        cooldownMs < e.time - s.lastMatchTime) ∧
    cooldownRun 2000 cdInit
      [⟨100000, "A", true, "verified"⟩, ⟨100500, "A", true, "verified"⟩] =
      [(100000, "A")] := by
  refine ⟨?_, ?_, ?_⟩
  · intro cooldownMs hcd events s
    haveI : IsTrans ℚ (fun a b : ℚ => cooldownMs < b - a) :=
      ⟨fun a b c hab hbc => by linarith⟩
    have hchain := cooldownRun_chain cooldownMs events s
    have hpw := List.chain_iff_pairwise.mp hchain
    have htail := (List.pairwise_cons.mp hpw).2
    exact (List.pairwise_map).mp htail
  · intro cooldownMs s e s' em h
    unfold cooldownStep at h
    split_ifs at h with h1 h2
    · rw [Prod.mk.injEq, Option.some.injEq] at h
      exact ⟨h.2.symm, h.1.symm, h2⟩
    · rw [Prod.mk.injEq] at h
      exact absurd h.2 (by simp)
    · rw [Prod.mk.injEq] at h
      exact absurd h.2 (by simp)
  · norm_num [cooldownRun, cooldownStep, cdInit]

/-- C5 witness: the gate theorem applied at cooldown 2000 ms, an empty event
stream, and at a concrete single emission step. -/
theorem c5_cooldown_gate_witness :
    (0 : ℚ) ≤ 2000 ∧
    List.Pairwise (fun a b : ℚ × String => (2000 : ℚ) < b.1 - a.1)
      (cooldownRun 2000 cdInit [⟨100000, "A", true, "verified"⟩]) ∧
    (cooldownStep 2000 cdInit ⟨100000, "A", true, "verified"⟩ =
      (⟨100000, some "A"⟩, some (100000, "A")) →
      ((100000, "A") : ℚ × String) = (100000, "A") ∧
        (⟨100000, some "A"⟩ : CDState) = ⟨100000, some "A"⟩ ∧
        (2000 : ℚ) < 100000 - cdInit.lastMatchTime) :=
  ⟨by norm_num,
    c5_cooldown_gate.1 2000 (by norm_num) [⟨100000, "A", true, "verified"⟩] cdInit,
    fun h => c5_cooldown_gate.2.1 2000 cdInit ⟨100000, "A", true, "verified"⟩
      ⟨100000, some "A"⟩ (100000, "A") h⟩

/-- Helper: `getD` of a prefix agrees with `getD` of the list below the cut. -/
theorem getD_take_of_lt (l : List ℝ) (n m : ℕ) (h : m < n) (d : ℝ) :
    (l.take n).getD m d = l.getD m d := by
  simp [List.getD, List.getElem?_take, h]

/-- Helper: `normalize_landmarks` keeps the frame length. -/
theorem normalize_landmarks_length (f : Frame) :
    (normalize_landmarks f).length = f.length := by
  unfold normalize_landmarks
  split_ifs <;> simp

/-- Helper: with at least 6 points and a passing shoulder width, the base
normalization is the pointwise centre-and-scale map on x,y with z kept. -/
theorem normalize_landmarks_eq_map (f : Frame) (h6 : ¬ f.length < 6)
    (hw : 0.01 < shoulderWidth f) :
    normalize_landmarks f = f.map (fun p =>
      ((p.1 - shoulderCenterX f) / shoulderWidth f,
        (p.2.1 - shoulderCenterY f) / shoulderWidth f, p.2.2)) := by
  simp only [normalize_landmarks, if_neg h6, if_pos hw, List.map_map]
  rfl

/-- Helper: with a failing shoulder width the base normalization only
translates x,y. -/
theorem normalize_landmarks_unscaled (f : Frame) (h6 : ¬ f.length < 6)
    (hw : ¬ 0.01 < shoulderWidth f) :
    normalize_landmarks f = f.map (fun p =>
      (p.1 - shoulderCenterX f, p.2.1 - shoulderCenterY f, p.2.2)) := by
  simp only [normalize_landmarks, if_neg h6, if_neg hw]

/-- Helper: the base normalization never touches any z coordinate. -/
theorem normalize_landmarks_preserves_z (f : Frame) :
    (normalize_landmarks f).map (fun p => p.2.2) = f.map (fun p => p.2.2) := by
  unfold normalize_landmarks
  split_ifs <;> simp [List.map_map]

/-- Helper: with more than 12 points and a passing width, the builder
normalization is the pointwise 3-D centre-and-scale map, z included. -/
theorem gen_normalize_landmarks_eq_map (lms : List Pt) (h12 : 12 < lms.length)
    (hw : 0.01 < genShoulderWidth lms) :
    gen_normalize_landmarks lms = lms.map (fun p =>
      ((p.1 - genCenterX lms) / genShoulderWidth lms,
        (p.2.1 - genCenterY lms) / genShoulderWidth lms,
        (p.2.2 - genCenterZ lms) / genShoulderWidth lms)) := by
  simp only [gen_normalize_landmarks, if_pos h12, if_pos hw, List.map_map]
  rfl

/-- Helper: the shoulder width of the concrete valid frame. -/
theorem shoulderWidth_validFrame : shoulderWidth validFrame = 2 := by
  have h : shoulderWidth validFrame = Real.sqrt (((0 : ℝ) - 2) ^ 2 + ((1 : ℝ) - 1) ^ 2) := rfl
  rw [h, show ((0 : ℝ) - 2) ^ 2 + ((1 : ℝ) - 1) ^ 2 = 2 ^ 2 by norm_num,
    Real.sqrt_sq (by norm_num : (0 : ℝ) ≤ 2)]

/-- Helper: the missing-hand frame has the same shoulders, so width 2. -/
theorem shoulderWidth_missingFrame : shoulderWidth missingFrame = 2 := by
  have h : shoulderWidth missingFrame = Real.sqrt (((0 : ℝ) - 2) ^ 2 + ((1 : ℝ) - 1) ^ 2) := rfl
  rw [h, show ((0 : ℝ) - 2) ^ 2 + ((1 : ℝ) - 1) ^ 2 = 2 ^ 2 by norm_num,
    Real.sqrt_sq (by norm_num : (0 : ℝ) ≤ 2)]

/-- Helper: the degenerate frame has shoulder width 1/200. -/
theorem shoulderWidth_degenerateFrame : shoulderWidth degenerateFrame = 1 / 200 := by
  have h : shoulderWidth degenerateFrame =
      Real.sqrt (((1 : ℝ) - 201 / 200) ^ 2 + ((1 : ℝ) - 1) ^ 2) := rfl
  rw [h, show ((1 : ℝ) - 201 / 200) ^ 2 + ((1 : ℝ) - 1) ^ 2 = (1 / 200) ^ 2 by norm_num,
    Real.sqrt_sq (by norm_num : (0 : ℝ) ≤ 1 / 200)]

/-- Helper: the builder landmark example has shoulder width 2. -/
theorem genShoulderWidth_builderLandmarks : genShoulderWidth builderLandmarks = 2 := by
  have h : genShoulderWidth builderLandmarks =
      Real.sqrt (((0 : ℝ) - 2) ^ 2 + ((1 : ℝ) - 1) ^ 2) := rfl
  rw [h, show ((0 : ℝ) - 2) ^ 2 + ((1 : ℝ) - 1) ^ 2 = 2 ^ 2 by norm_num,
    Real.sqrt_sq (by norm_num : (0 : ℝ) ≤ 2)]

/-- C6 counterexample: at a degenerate pose (shoulder width 1/200 < 0.01) the
spec-modelled normalizer rejects, but `normalize_landmarks` returns a
normalized frame — the input merely translated by the shoulder midpoint —
rather than any rejection signal. -/
theorem c6_normalizer_counterexample :
    shoulderWidth degenerateFrame < 0.01 ∧
    normalizerSpec degenerateFrame = none ∧
    normalize_landmarks degenerateFrame =
      [(-(1 / 400), 0, 0), (1 / 400, 0, 0), (-(401 / 400), -1, 0), (-(401 / 400), -1, 0),
        (-(401 / 400), -1, 0), (-(401 / 400), -1, 0)] := by
  have hw : shoulderWidth degenerateFrame = 1 / 200 := shoulderWidth_degenerateFrame
  refine ⟨by rw [hw]; norm_num, ?_, ?_⟩
  · unfold normalizerSpec
    rw [if_pos (by rw [hw]; norm_num)]
  · have hcx : shoulderCenterX degenerateFrame = 401 / 400 := by
      have h : shoulderCenterX degenerateFrame = ((1 : ℝ) + 201 / 200) / 2 := rfl
      rw [h]; norm_num
    have hcy : shoulderCenterY degenerateFrame = 1 := by
      have h : shoulderCenterY degenerateFrame = ((1 : ℝ) + 1) / 2 := rfl
      rw [h]; norm_num
    rw [normalize_landmarks_unscaled degenerateFrame (by simp [degenerateFrame])
      (by rw [hw]; norm_num), hcx, hcy]
    rw [show degenerateFrame = [((1 : ℝ), (1 : ℝ), (0 : ℝ)), (201 / 200, 1, 0), (0, 0, 0),
      (0, 0, 0), (0, 0, 0), (0, 0, 0)] from rfl]
    simp only [List.map_cons, List.map_nil]
    norm_num

/-- C6 amended: for a frame of at least 6 points whose shoulder width does
not exceed 0.01, `normalize_landmarks` does not reject; it returns the frame
translated by the shoulder midpoint in x,y, with no scaling applied. -/
theorem c6_normalizer_amended (f : Frame) (h6 : ¬ f.length < 6)
    (hw : ¬ 0.01 < shoulderWidth f) :
    normalize_landmarks f = f.map (fun p =>
      (p.1 - shoulderCenterX f, p.2.1 - shoulderCenterY f, p.2.2)) :=
  normalize_landmarks_unscaled f h6 hw

/-- C6 witness: the amended theorem at the concrete degenerate frame. -/
theorem c6_normalizer_amended_witness :
    ¬ degenerateFrame.length < 6 ∧ ¬ 0.01 < shoulderWidth degenerateFrame ∧
    normalize_landmarks degenerateFrame = degenerateFrame.map (fun p =>
      (p.1 - shoulderCenterX degenerateFrame, p.2.1 - shoulderCenterY degenerateFrame, p.2.2)) :=
  ⟨by simp [degenerateFrame], by rw [shoulderWidth_degenerateFrame]; norm_num,
    c6_normalizer_amended degenerateFrame (by simp [degenerateFrame])
      (by rw [shoulderWidth_degenerateFrame]; norm_num)⟩

/-- C7 counterexample: the builder normalization changes a z coordinate — at
the 13-point example the first point enters with z = 1 and leaves with z = 0
— so the two normalization paths do not share the claimed x,y-only
contract. -/
theorem c7_normalization_contract_counterexample :
    (builderLandmarks.getD 0 (0, 0, 0)).2.2 = 1 ∧
    ((gen_normalize_landmarks builderLandmarks).getD 0 (0, 0, 0)).2.2 = 0 ∧
    ((1 : ℝ) ≠ 0) := by
  refine ⟨rfl, ?_, by norm_num⟩
  have hcz : genCenterZ builderLandmarks = 1 := by
    have h : genCenterZ builderLandmarks = ((1 : ℝ) + 1) / 2 := rfl
    rw [h]; norm_num
  have hwv : genShoulderWidth builderLandmarks = 2 := genShoulderWidth_builderLandmarks
  rw [gen_normalize_landmarks_eq_map builderLandmarks (by simp [builderLandmarks])
    (by rw [hwv]; norm_num), hcz, hwv]
  rw [show builderLandmarks = ((0 : ℝ), (0 : ℝ), (1 : ℝ)) ::
    (List.replicate 10 zeroPt ++ [((0 : ℝ), 1, 1), ((2 : ℝ), 1, 1)]) from rfl]
  rw [List.map_cons, List.getD_cons_zero]
  norm_num

/-- C7 amended: the Matcher normalization leaves every z coordinate unchanged
and transforms only x,y (centre then scale when the width passes); the
Builder normalization instead subtracts the full 3-D shoulder midpoint and
divides all three coordinates, z included, by the shoulder width — the two
paths do not share one contract. -/
theorem c7_normalization_contract_amended :
    (∀ f : Frame, (normalize_landmarks f).map (fun p => p.2.2) = f.map (fun p => p.2.2)) ∧
    (∀ f : Frame, ¬ f.length < 6 → 0.01 < shoulderWidth f →
      normalize_landmarks f = f.map (fun p =>
        ((p.1 - shoulderCenterX f) / shoulderWidth f,
          (p.2.1 - shoulderCenterY f) / shoulderWidth f, p.2.2))) ∧
    (∀ lms : List Pt, 12 < lms.length → 0.01 < genShoulderWidth lms →
      gen_normalize_landmarks lms = lms.map (fun p =>
        ((p.1 - genCenterX lms) / genShoulderWidth lms,
          (p.2.1 - genCenterY lms) / genShoulderWidth lms,
          (p.2.2 - genCenterZ lms) / genShoulderWidth lms))) :=
  ⟨normalize_landmarks_preserves_z,
    fun f h6 hw => normalize_landmarks_eq_map f h6 hw,
    fun lms h12 hw => gen_normalize_landmarks_eq_map lms h12 hw⟩

/-- C7 witness: the amended contract at the concrete valid frame and at the
concrete builder landmark list. -/
theorem c7_normalization_contract_amended_witness :
    (¬ validFrame.length < 6 ∧ 0.01 < shoulderWidth validFrame ∧
      normalize_landmarks validFrame = validFrame.map (fun p =>
        ((p.1 - shoulderCenterX validFrame) / shoulderWidth validFrame,
          (p.2.1 - shoulderCenterY validFrame) / shoulderWidth validFrame, p.2.2))) ∧
    (12 < builderLandmarks.length ∧ 0.01 < genShoulderWidth builderLandmarks ∧
      gen_normalize_landmarks builderLandmarks = builderLandmarks.map (fun p =>
        ((p.1 - genCenterX builderLandmarks) / genShoulderWidth builderLandmarks,
          (p.2.1 - genCenterY builderLandmarks) / genShoulderWidth builderLandmarks,
          (p.2.2 - genCenterZ builderLandmarks) / genShoulderWidth builderLandmarks))) :=
  ⟨⟨by simp [validFrame], by rw [shoulderWidth_validFrame]; norm_num,
      c7_normalization_contract_amended.2.1 validFrame (by simp [validFrame])
        (by rw [shoulderWidth_validFrame]; norm_num)⟩,
    ⟨by simp [builderLandmarks], by rw [genShoulderWidth_builderLandmarks]; norm_num,
      c7_normalization_contract_amended.2.2 builderLandmarks (by simp [builderLandmarks])
        (by rw [genShoulderWidth_builderLandmarks]; norm_num)⟩⟩

/-- C8 counterexample: the builder frame-embedding of a frame with zero
detected points is the zero vector of length 52, not of length D = 512. -/
theorem c8_embedding_length_counterexample :
    frame_to_embedding ⟨[], [], [], []⟩ = List.replicate 52 0 ∧
    (frame_to_embedding ⟨[], [], [], []⟩).length = 52 ∧ (52 : ℕ) ≠ 512 := by
  refine ⟨rfl, ?_, by decide⟩
  rw [show frame_to_embedding ⟨[], [], [], []⟩ = List.replicate 52 0 from rfl]
  simp

/-- C8 amended: the matcher embedding, when produced, has length exactly 512,
and the builder pads or truncates to 512 only the final averaged signature
embedding; the builder per-frame embedding of an empty frame is the zero
vector of length 52. -/
theorem c8_embedding_length_amended :
    (∀ window : List Frame, (compute_embedding window).map List.length =
      (compute_embedding window).map (fun _ => 512)) ∧
    frame_to_embedding ⟨[], [], [], []⟩ = List.replicate 52 0 ∧
    (∀ l : List ℝ, (padToEmbeddingDim l).length = 512) := by
  refine ⟨?_, rfl, ?_⟩
  · intro window
    unfold compute_embedding
    split_ifs <;> simp
  · intro l
    unfold padToEmbeddingDim
    split_ifs with h
    · simp only [List.length_append, List.length_replicate]
      omega
    · simp only [List.length_take]
      omega

/-- Helper: when every modified z-score exceeds 3 in absolute value, the
z-score filter keeps no frame. -/
theorem outlierFiltered_eq_nil (fe : List (List ℝ))
    (hz : ∀ z ∈ outlierModifiedZ fe, 3.0 < |z|) : outlierFiltered fe = [] := by
  unfold outlierFiltered
  rw [List.map_eq_nil_iff, List.filter_eq_nil_iff]
  rintro ⟨e, z⟩ hp
  have hz2 := hz z (List.of_mem_zip hp).2
  simp only [decide_eq_true_eq, not_lt]
  linarith

/-- C3: the outlier-rejection step never empties a non-empty frame set: fewer
than 5 frames are returned unchanged, a MAD below 1e-6 returns the input
unchanged, and when every frame would be dropped by the z-score cut the
original set is kept. -/
theorem c3_outlier_rejection_nonempty (fe : List (List ℝ)) (h : fe ≠ []) :
    remove_outlier_frames fe ≠ [] ∧
    (fe.length < 5 → remove_outlier_frames fe = fe) ∧
    (¬ fe.length < 5 → outlierMad fe < 1e-6 → remove_outlier_frames fe = fe) ∧
    ((∀ z ∈ outlierModifiedZ fe, 3.0 < |z|) → remove_outlier_frames fe = fe) := by
  refine ⟨?_, ?_, ?_, ?_⟩
  · unfold remove_outlier_frames
    split_ifs with h1 h2 h3
    · exact h
    · exact h
    · exact h
    · simpa [List.isEmpty_iff] using h3
  · intro h5
    unfold remove_outlier_frames
    rw [if_pos h5]
  · intro h5 hm
    unfold remove_outlier_frames
    rw [if_neg h5, if_pos hm]
  · intro hz
    have hemp := outlierFiltered_eq_nil fe hz
    unfold remove_outlier_frames
    split_ifs with h1 h2 h3
    · rfl
    · rfl
    · rfl
    · exact absurd (by simp [hemp]) h3

/-- C3 witness: the non-emptiness theorem at the one-frame set [[0]]. -/
theorem c3_outlier_rejection_nonempty_witness :
    ([[(0 : ℝ)]] : List (List ℝ)) ≠ [] ∧
    (remove_outlier_frames [[(0 : ℝ)]] ≠ [] ∧
    (([[(0 : ℝ)]] : List (List ℝ)).length < 5 → remove_outlier_frames [[(0 : ℝ)]] = [[(0 : ℝ)]]) ∧
    (¬ ([[(0 : ℝ)]] : List (List ℝ)).length < 5 → outlierMad [[(0 : ℝ)]] < 1e-6 →
      remove_outlier_frames [[(0 : ℝ)]] = [[(0 : ℝ)]]) ∧
    ((∀ z ∈ outlierModifiedZ [[(0 : ℝ)]], 3.0 < |z|) →
      remove_outlier_frames [[(0 : ℝ)]] = [[(0 : ℝ)]])) :=
  ⟨by simp, c3_outlier_rejection_nonempty [[(0 : ℝ)]] (by simp)⟩

/-- Helper: `flattenPts` has three entries per point. -/
theorem flattenPts_length (l : List Pt) : (flattenPts l).length = 3 * l.length := by
  induction l with
  | nil => rfl
  | cons p r ih =>
    simp only [flattenPts, List.length_cons, ih]
    ring

/-- Helper: the flattened list exposes the x coordinate of point k at slot
3k. -/
theorem flattenPts_getD_three_mul (l : List Pt) (k : ℕ) (d : ℝ) (hk : k < l.length) :
    (flattenPts l).getD (3 * k) d = (l.getD k (0, 0, 0)).1 := by
  induction l generalizing k with
  | nil => simp at hk
  | cons p r ih =>
    cases k with
    | zero => rfl
    | succ k =>
      rw [show 3 * (k + 1) = (3 * k + 1 + 1) + 1 by ring]
      simp only [flattenPts, List.getD_cons_succ]
      exact ih k (by simpa using Nat.lt_of_succ_lt_succ hk)

/-- Helper: below index 512 and inside the frame, the per-frame feature
vector exposes the normalized x coordinate of point k at slot 3k. -/
theorem frameFeatures_getD (f : Frame) (k : ℕ) (hk : k < f.length) (h3 : 3 * k < 512) :
    (frameFeatures f).getD (3 * k) 0 = ((normalize_landmarks f).getD k (0, 0, 0)).1 := by
  have hlen : (flattenPts (normalize_landmarks f)).length = 3 * f.length := by
    rw [flattenPts_length, normalize_landmarks_length]
  have hk3 : 3 * k < (flattenPts (normalize_landmarks f)).length := by
    rw [hlen]
    omega
  have hkn : k < (normalize_landmarks f).length := by
    rw [normalize_landmarks_length]
    exact hk
  unfold frameFeatures
  split_ifs with h
  · rw [getD_take_of_lt _ _ _ h3, List.getD_append _ _ _ _ hk3]
    exact flattenPts_getD_three_mul _ k 0 hkn
  · rw [getD_take_of_lt _ _ _ h3]
    exact flattenPts_getD_three_mul _ k 0 hkn

/-- Helper: the fully valid frame passes the per-frame quality check. -/
theorem quality_validFrame : is_frame_quality_good validFrame := by
  refine ⟨?_, ?_, Or.inl ?_⟩
  · rw [show validFrame.getD 0 (0, 0, 0) = shoulderLPt from rfl]
    intro h
    have h2 := h.2.1
    rw [show shoulderLPt.2.1 = (1 : ℝ) from rfl] at h2
    norm_num at h2
  · rw [show validFrame.getD 1 (0, 0, 0) = shoulderRPt from rfl]
    intro h
    have h2 := h.1
    rw [show shoulderRPt.1 = (2 : ℝ) from rfl] at h2
    norm_num at h2
  · rw [show (validFrame.drop 6).take 21 = List.replicate 21 leftHandPt from rfl]
    refine ⟨leftHandPt, by simp [List.mem_replicate], Or.inl ?_⟩
    rw [show leftHandPt.1 = (1 / 2 : ℝ) from rfl,
      abs_of_nonneg (by norm_num : (0 : ℝ) ≤ 1 / 2)]
    norm_num

/-- Helper: the frame with the missing left hand still passes the quality
check through its right hand. -/
theorem quality_missingFrame : is_frame_quality_good missingFrame := by
  refine ⟨?_, ?_, Or.inr ?_⟩
  · rw [show missingFrame.getD 0 (0, 0, 0) = shoulderLPt from rfl]
    intro h
    have h2 := h.2.1
    rw [show shoulderLPt.2.1 = (1 : ℝ) from rfl] at h2
    norm_num at h2
  · rw [show missingFrame.getD 1 (0, 0, 0) = shoulderRPt from rfl]
    intro h
    have h2 := h.1
    rw [show shoulderRPt.1 = (2 : ℝ) from rfl] at h2
    norm_num at h2
  · rw [show (missingFrame.drop 27).take 21 = List.replicate 21 rightHandPt from rfl]
    refine ⟨rightHandPt, by simp [List.mem_replicate], Or.inl ?_⟩
    rw [show rightHandPt.1 = (3 / 2 : ℝ) from rfl,
      abs_of_nonneg (by norm_num : (0 : ℝ) ≤ 3 / 2)]
    norm_num

/-- Helper: every frame of the clean window passes the quality gate. -/
theorem goodFrameCount_windowFull : goodFrameCount windowFull = 30 := by
  unfold goodFrameCount windowFull
  rw [List.map_replicate, if_pos quality_validFrame, List.sum_replicate]
  simp

/-- Helper: every frame of the dropout window passes the quality gate. -/
theorem goodFrameCount_windowMissing : goodFrameCount windowMissing = 30 := by
  unfold goodFrameCount windowMissing
  rw [List.map_append, List.map_replicate, if_pos quality_validFrame, List.sum_append,
    List.sum_replicate, List.map_cons, if_pos quality_missingFrame, List.map_nil]
  simp

/-- Helper: the shoulder midpoint of the valid frame is (1, 1). -/
theorem centers_validFrame : shoulderCenterX validFrame = 1 ∧ shoulderCenterY validFrame = 1 := by
  constructor
  · have h : shoulderCenterX validFrame = ((0 : ℝ) + 2) / 2 := rfl
    rw [h]
    norm_num
  · have h : shoulderCenterY validFrame = ((1 : ℝ) + 1) / 2 := rfl
    rw [h]
    norm_num

/-- Helper: the shoulder midpoint of the dropout frame is (1, 1). -/
theorem centers_missingFrame :
    shoulderCenterX missingFrame = 1 ∧ shoulderCenterY missingFrame = 1 := by
  constructor
  · have h : shoulderCenterX missingFrame = ((0 : ℝ) + 2) / 2 := rfl
    rw [h]
    norm_num
  · have h : shoulderCenterY missingFrame = ((1 : ℝ) + 1) / 2 := rfl
    rw [h]
    norm_num

/-- Helper: after normalization the valid frame holds -1/4 at the first
left-hand x coordinate (point index 6). -/
theorem normVF_slot6 : ((normalize_landmarks validFrame).getD 6 (0, 0, 0)).1 = -(1 / 4) := by
  rw [normalize_landmarks_eq_map validFrame (by simp [validFrame])
    (by rw [shoulderWidth_validFrame]; norm_num), centers_validFrame.1, centers_validFrame.2,
    shoulderWidth_validFrame]
  simp only [List.getD, List.get?_eq_getElem?, List.getElem?_map,
    show validFrame[6]? = some leftHandPt from rfl, Option.map_some', Option.getD_some]
  rw [show leftHandPt.1 = (1 / 2 : ℝ) from rfl]
  norm_num

/-- Helper: after normalization the dropout frame holds -1/2 at the first
left-hand x coordinate — the raw zero sentinel was shifted by the shoulder
midpoint and scaled, so it is no longer zero. -/
theorem normMF_slot6 : ((normalize_landmarks missingFrame).getD 6 (0, 0, 0)).1 = -(1 / 2) := by
  rw [normalize_landmarks_eq_map missingFrame (by simp [missingFrame])
    (by rw [shoulderWidth_missingFrame]; norm_num), centers_missingFrame.1,
    centers_missingFrame.2, shoulderWidth_missingFrame]
  simp only [List.getD, List.get?_eq_getElem?, List.getElem?_map,
    show missingFrame[6]? = some zeroPt from rfl, Option.map_some', Option.getD_some]
  rw [show zeroPt.1 = (0 : ℝ) from rfl]
  norm_num

/-- Helper: the clean window's embedding holds -1/4 at slot 18 (the first
left-hand x slot). -/
theorem embedding_windowFull_slot18 :
    (compute_embedding windowFull).map (fun e => e.getD 18 0) = some (-(1 / 4)) := by
  have hlen : ¬ windowFull.length < 30 := by simp [windowFull]
  have hq : ¬ ((goodFrameCount windowFull : ℝ) / (windowFull.length : ℝ) < 0.7) := by
    rw [goodFrameCount_windowFull, show windowFull.length = 30 from by simp [windowFull]]
    norm_num
  have hval : ((fun fl : List ℝ => fl[18]?.getD (0 : ℝ)) ∘ frameFeatures) validFrame =
      -(1 / 4) := by
    show (frameFeatures validFrame)[18]?.getD (0 : ℝ) = -(1 / 4)
    rw [← List.getD_eq_getElem?_getD, show (18 : ℕ) = 3 * 6 from rfl,
      frameFeatures_getD validFrame 6 (by simp [validFrame]) (by norm_num)]
    exact normVF_slot6
  unfold compute_embedding
  rw [if_neg hlen, if_neg hq, Option.map_some', Option.some.injEq]
  simp only [List.getD, List.get?_eq_getElem?, List.getElem?_map,
    List.getElem?_range (show (18 : ℕ) < 512 by norm_num),
    Option.map_some', Option.getD_some, List.map_map]
  unfold windowFull
  rw [List.map_replicate, hval]
  have hfil : List.filter (fun x => decide (x ≠ 0)) (List.replicate 30 (-(1 / 4) : ℝ)) =
      List.replicate 30 (-(1 / 4) : ℝ) := by
    rw [List.filter_replicate]
    norm_num
  unfold maskedMean
  rw [hfil, if_neg (by simp), List.sum_replicate, List.length_replicate, nsmul_eq_mul]
  norm_num

/-- Helper: the dropout window's embedding holds -31/120 at slot 18: the
shifted sentinel -1/2 is non-zero, survives the mask, and biases the mean. -/
theorem embedding_windowMissing_slot18 :
    (compute_embedding windowMissing).map (fun e => e.getD 18 0) = some (-(31 / 120)) := by
  have hlen : ¬ windowMissing.length < 30 := by simp [windowMissing]
  have hq : ¬ ((goodFrameCount windowMissing : ℝ) / (windowMissing.length : ℝ) < 0.7) := by
    rw [goodFrameCount_windowMissing, show windowMissing.length = 30 from by simp [windowMissing]]
    norm_num
  have hval : ((fun fl : List ℝ => fl[18]?.getD (0 : ℝ)) ∘ frameFeatures) validFrame =
      -(1 / 4) := by
    show (frameFeatures validFrame)[18]?.getD (0 : ℝ) = -(1 / 4)
    rw [← List.getD_eq_getElem?_getD, show (18 : ℕ) = 3 * 6 from rfl,
      frameFeatures_getD validFrame 6 (by simp [validFrame]) (by norm_num)]
    exact normVF_slot6
  have hvalm : ((fun fl : List ℝ => fl[18]?.getD (0 : ℝ)) ∘ frameFeatures) missingFrame =
      -(1 / 2) := by
    show (frameFeatures missingFrame)[18]?.getD (0 : ℝ) = -(1 / 2)
    rw [← List.getD_eq_getElem?_getD, show (18 : ℕ) = 3 * 6 from rfl,
      frameFeatures_getD missingFrame 6 (by simp [missingFrame]) (by norm_num)]
    exact normMF_slot6
  unfold compute_embedding
  rw [if_neg hlen, if_neg hq, Option.map_some', Option.some.injEq]
  simp only [List.getD, List.get?_eq_getElem?, List.getElem?_map,
    List.getElem?_range (show (18 : ℕ) < 512 by norm_num),
    Option.map_some', Option.getD_some, List.map_map]
  unfold windowMissing
  rw [List.map_append, List.map_replicate, hval, List.map_cons, List.map_nil, hvalm]
  have hfil : List.filter (fun x => decide (x ≠ 0))
      (List.replicate 29 (-(1 / 4) : ℝ) ++ [-(1 / 2)]) =
      List.replicate 29 (-(1 / 4) : ℝ) ++ [-(1 / 2)] := by
    rw [List.filter_append, List.filter_replicate]
    norm_num [List.filter_cons]
  unfold maskedMean
  rw [hfil, if_neg (by simp), List.sum_append, List.sum_replicate, List.length_append,
    List.length_replicate, nsmul_eq_mul]
  norm_num

/-- C1 (code bug evaluation): the spec requires a window with one
missing-left_hand frame to pool to the same slot value as the clean window;
the code pools -31/120 against -1/4 at the first left-hand slot, because the
zero sentinel is displaced by normalization before the zero mask is built. -/
theorem c1_masked_pooling_code_eval :
    (validFrame.drop 6).take 21 = List.replicate 21 leftHandPt ∧
    (missingFrame.drop 6).take 21 = List.replicate 21 zeroPt ∧
    (compute_embedding windowMissing).map (fun e => e.getD 18 0) = some (-(31 / 120)) ∧
    (compute_embedding windowFull).map (fun e => e.getD 18 0) = some (-(1 / 4)) ∧
    (-(31 / 120) : ℝ) ≠ -(1 / 4) :=
  ⟨rfl, rfl, embedding_windowMissing_slot18, embedding_windowFull_slot18, by norm_num⟩

/-- C9 counterexample: with zero embeddings loaded, `match_embedding` reports
the status `no_embeddings`, which is none of the five statuses the claim
allows (and in particular is not `low_confidence`). -/
theorem c9_status_counterexample :
    (match_embedding [] []).verification_status = "no_embeddings" ∧
    (match_embedding [] []).concept = none ∧
    "no_embeddings" ∉ ["insufficient_data", "low_confidence", "cross_concept_noise",
      "pending_confirmation", "verified"] := by
  refine ⟨?_, ?_, by decide⟩ <;> simp [match_embedding, matchScores]

/-- C9 amended: with zero embeddings the matcher degrades without raising to
a no-match result whose status is `no_embeddings`; every status
`match_embedding` reports lies in {no_embeddings, low_confidence,
cross_concept_noise, verified} and every status the UI recognition path
computes lies in {verified, pending_confirmation, low_confidence,
cross_concept_noise}; `insufficient_data` is never produced. -/
theorem c9_status_amended :
    match_embedding [] [] = ⟨none, 0, "low", "no_embeddings", [], 0⟩ ∧
    (∀ (live : List ℝ) (embeddings : List (String × List ℝ)),
      (match_embedding live embeddings).verification_status ∈
        ["no_embeddings", "low_confidence", "cross_concept_noise", "verified"]) ∧
    (∀ (confirmed : Option String) (best gap : ℚ),
      uiStatus confirmed best gap ∈
        ["verified", "pending_confirmation", "low_confidence", "cross_concept_noise"]) := by
  refine ⟨by simp [match_embedding, matchScores], ?_, ?_⟩
  · intro live embeddings
    unfold match_embedding matchScores
    split_ifs with h
    · simp
    · dsimp only
      unfold tierStatus
      split_ifs <;> simp
  · intro confirmed best gap
    unfold uiStatus
    split_ifs <;> simp

/-- C10: with the same best concept scoring 0.85 against a runner-up at 0.80
(gap 0.05 < 0.15) on five consecutive frames, `recognize` reports
`cross_concept_noise` for four frames and then `verified` at frame five once
the temporal filter confirms — even though the Tier-4 gap rule alone
classifies exactly this window as `cross_concept_noise`. -/
theorem c10_hysteresis_overrides_gap :
    uiRecognizeRun tfInit
      [("A", 0.85, 0.80), ("A", 0.85, 0.80), ("A", 0.85, 0.80), ("A", 0.85, 0.80),
        ("A", 0.85, 0.80)] =
      ["cross_concept_noise", "cross_concept_noise", "cross_concept_noise",
        "cross_concept_noise", "verified"] ∧
    tierStatus 0.85 (0.85 - 0.80) = "cross_concept_noise" ∧
    (0.80 : ℚ) ≤ 0.85 ∧ (0.85 : ℚ) - 0.80 < 0.15 := by
  refine ⟨?_, ?_, by norm_num, by norm_num⟩
  · norm_num [uiRecognizeRun, uiRecognizeStep, uiStatus, tfUpdate, tfInit,
      show ("A" : String) ≠ "" from by decide]
  · rw [tierStatus_eq_cross_iff]
    norm_num

end HandInHand
